import Mathlib

/-!
Verification development for the flight-booking chat bot repository.

The booking conversation is implemented as a Bot Framework waterfall dialog
(`BookingDialog` in the repository). We shallowly embed:

* the price parsing and amount/currency resolution helpers
  (`_parsePrice`, `calculateTotalAmount`, the minor-unit conversion and the
  per-currency bound table inside `processPaymentStep`),
* the card validators of the payment service (`luhnCheck`,
  `validateCreditCard`, `validateExpiryDate`, and the inline format checks of
  the multi-currency `processPayment`),
* the sixteen waterfall steps as a small-step state machine over an explicit
  session value record, with user replies and the payment collaborator result
  supplied as inputs, and outbound activities recorded as an event list.

JavaScript numbers are modelled as exact rationals (`ℚ`); `Math.round` is
`jsRound`.  Outbound chat messages are modelled as an enumeration of message
identities (`Msg`) rather than literal text: the claims under study depend on
which user-visible message is emitted, not on its wording.
-/

namespace FlightBot

/-! ## Generic JavaScript-style string and number helpers -/

/-- Is the first character list a prefix of the second. -/
def leadsWith : List Char → List Char → Bool
  | [], _ => true
  | _ :: _, [] => false
  | a :: as, b :: bs => a == b && leadsWith as bs

/-- Does the second list contain the first as a contiguous sublist
(JavaScript `String.prototype.includes`). -/
def containsSubList (sub : List Char) : List Char → Bool
  | [] => leadsWith sub []
  | c :: t => leadsWith sub (c :: t) || containsSubList sub t

/-- JavaScript `s.includes(sub)`. -/
def strContains (s sub : String) : Bool :=
  containsSubList sub.data s.data

/-- JavaScript `s.toUpperCase()` (ASCII letters; the characters relevant to
the price strings are unaffected by the difference on exotic code points). -/
def jsToUpper (s : String) : String :=
  String.mk (s.data.map Char.toUpper)

/-- JavaScript `s.toLowerCase()` (ASCII letters). -/
def jsToLower (s : String) : String :=
  String.mk (s.data.map Char.toLower)

/-- JavaScript `s.replace(/\s/g, "")`. -/
def stripSpaces (s : String) : String :=
  String.mk (s.data.filter (fun c => !c.isWhitespace))

/-- JavaScript `s.replace(" ", "_")`: only the first occurrence is replaced. -/
def replaceFirstSpace : List Char → List Char
  | [] => []
  | c :: t => if c == ' ' then '_' :: t else c :: replaceFirstSpace t

/-- Numeric value of a digit list (most significant first). -/
def natOfDigits (ds : List Char) : ℕ :=
  ds.foldl (fun a c => 10 * a + (c.toNat - 48)) 0

/-- JavaScript `parseFloat` restricted to strings made of digits and dots
(the only inputs it receives here: both call sites first strip every other
character).  Parses the longest prefix `digits [. digits]`; `none` models
`NaN`. -/
def jsParseFloat (s : String) : Option ℚ :=
  let p := s.data.span Char.isDigit
  match p.2 with
  | '.' :: rest =>
    let fs := (rest.span Char.isDigit).1
    if p.1.isEmpty && fs.isEmpty then none
    else some ((natOfDigits p.1 : ℚ) + (natOfDigits fs : ℚ) / (10 ^ fs.length))
  | _ => if p.1.isEmpty then none else some (natOfDigits p.1)

/-- JavaScript `s.replace(/[^0-9.]/g, "")`. -/
def jsCleanNumeric (s : String) : String :=
  String.mk (s.data.filter (fun c => c.isDigit || c == '.'))

/-- JavaScript `Math.round`: round half toward positive infinity. -/
def jsRound (q : ℚ) : ℤ :=
  ⌊q + 1 / 2⌋

/-- JavaScript `a || b` on optional strings (`undefined` and `""` are falsy). -/
def jsOrOpt (a b : Option String) : Option String :=
  match a with
  | some s => if s.isEmpty then b else some s
  | none => b

/-- JavaScript `a || d` on an optional string against a string default. -/
def jsOrStr (a : Option String) (d : String) : String :=
  match a with
  | some s => if s.isEmpty then d else s
  | none => d

/-! ## Field validators (regular expressions of the dialog and the service) -/

/-- Character class `[^\s@]`. -/
def emailChunkChar (c : Char) : Bool :=
  !(c == '@' || c.isWhitespace)

/-- After dropping the first character, is there a `.` that is not the last
character (so, in the full list, a `.` at an inner position). -/
def dotBeforeEnd : List Char → Bool
  | [] => false
  | [_] => false
  | c :: t => c == '.' || dotBeforeEnd t

/-- `isValidEmail` of the dialog: the regular expression
`^[^\s@]+@[^\s@]+\.[^\s@]+$` — exactly one `@`, no whitespace, at least one
character before the `@`, and after the `@` a `.` with at least one character
on each side. -/
def isValidEmail (email : String) : Bool :=
  match email.data.span (fun c => c != '@') with
  | (l, '@' :: d) =>
    !l.isEmpty && l.all emailChunkChar && d.all emailChunkChar &&
      (match d with
       | [] => false
       | _ :: t => dotBeforeEnd t)
  | _ => false

/-- `/^\d{16}$/` — the card-number validator of the dialog (after stripping
whitespace). -/
def isSixteenDigits (s : String) : Bool :=
  s.data.length == 16 && s.data.all Char.isDigit

/-- `/^\d{2}\/\d{2}$/` — the expiry shape check of the dialog and of the service. -/
def isMmYyShape (s : String) : Bool :=
  match s.data with
  | [a, b, sl, c, d] => a.isDigit && b.isDigit && sl == '/' && c.isDigit && d.isDigit
  | _ => false

/-- `/^\d{3,4}$/` — the CVV validator. -/
def isCvvShape (s : String) : Bool :=
  (s.data.length == 3 || s.data.length == 4) && s.data.all Char.isDigit

/-- `/^\d{13,19}$/` — the card-number format check of the payment service. -/
def isCardNumberFormat (s : String) : Bool :=
  13 ≤ s.data.length && s.data.length ≤ 19 && s.data.all Char.isDigit

/-! ## Amount/currency resolver (`_parsePrice` and friends) -/

/-- The currency-detection chain of `_parsePrice`: symbols/codes tried in the
fixed source order INR, USD, EUR, GBP; the first test that succeeds decides;
`USD` when none matches. -/
def detectCurrency (priceString : String) : String :=
  let upper := jsToUpper priceString
  if strContains priceString ("₹") || strContains upper ("INR") then ("INR")
  else if strContains priceString ("$") || strContains upper ("USD") then ("USD")
  else if strContains priceString ("€") || strContains upper ("EUR") then ("EUR")
  else if strContains priceString ("£") || strContains upper ("GBP") then ("GBP")
  else ("USD")

/-- `_parsePrice` of `BookingDialog`: detect the currency, strip every
character but digits and `.`, parse; a `NaN` parse (and the falsy-string
guard) yields amount `0`. -/
def parsePrice (priceString : String) : ℚ × String :=
  if priceString = ("") then (0, ("USD"))
  else
    let currency := detectCurrency priceString
    match jsParseFloat (jsCleanNumeric priceString) with
    | none => (0, currency)
    | some amount => (amount, currency)

/-- Modelled from the spec (§4.3 step 1, for comparison with the code-side
`detectCurrency`): scan the price string for currency symbols/codes in
priority order INR (₹ or INR), USD ($ or USD), EUR (€ or EUR),
GBP (£ or GBP); first match wins; default USD if none found. -/
def specDetectCurrency (priceString : String) : String :=
  let upper := jsToUpper priceString
  if strContains priceString ("₹") || strContains upper ("INR") then ("INR")
  else if strContains priceString ("$") || strContains upper ("USD") then ("USD")
  else if strContains priceString ("€") || strContains upper ("EUR") then ("EUR")
  else if strContains priceString ("£") || strContains upper ("GBP") then ("GBP")
  else ("USD")

/-- `basePrice * passengers.length` of `processPaymentStep`. -/
def totalOf (basePrice : ℚ) (passengerCount : ℕ) : ℚ :=
  basePrice * passengerCount

/-- Minor-unit conversion of `processPaymentStep`: yen and won have no
fractional unit, every other currency uses hundredths. -/
def toSmallestUnit (currency : String) (totalAmount : ℚ) : ℤ :=
  if currency = ("JPY") ∨ currency = ("KRW") then jsRound totalAmount
  else jsRound (totalAmount * 100)

/-- The `maxLimits` table of `processPaymentStep` with its
`maxLimits[currency] || 99999999` lookup (every table entry is nonzero, so
the default only applies to unknown currencies). -/
def maxLimitFor (currency : String) : ℤ :=
  if currency = ("USD") then 99999999
  else if currency = ("INR") then 999999999
  else if currency = ("EUR") then 99999999
  else if currency = ("GBP") then 99999999
  else if currency = ("JPY") then 99999999
  else 99999999

/-- `Math.round(x * 100) / 100`. -/
def round2 (q : ℚ) : ℚ :=
  (jsRound (q * 100) : ℚ) / 100

/-- Price string of a flight offer (the only flight field the booking logic
computes with; the remaining fields are display-only). -/
structure Flight where
  price : String
deriving DecidableEq, Repr

/-- `calculateTotalAmount` of `BookingDialog` (used by the summary card and
the alternative payment step): silently substitutes `49.99` when the price is
unparseable, non-positive, or implausibly large. -/
def calculateTotalAmount (flight : Flight) (passengerCount : ℕ) : ℚ :=
  match jsParseFloat (jsCleanNumeric flight.price) with
  | none => 4999 / 100
  | some basePrice =>
    if basePrice ≤ 0 then 4999 / 100
    else if basePrice > 5000 then 4999 / 100
    else
      let validPassengerCount : ℕ := max 1 passengerCount
      let total := totalOf basePrice validPassengerCount
      if total ≤ 0 then 4999 / 100
      else if total > 10000 then (4999 / 100) * validPassengerCount
      else round2 total

/-! ## Payment service validators (`paymentService.js`, multi-currency
variant) -/

/-- One pass of the Luhn sum, rightmost digit first; the flag says whether
the current digit is in an even position from the right (doubled). -/
def luhnSum : List Char → Bool → ℕ
  | [], _ => 0
  | c :: t, isEven =>
    let d := c.toNat - 48
    let d2 := if isEven then (if d * 2 > 9 then d * 2 - 9 else d * 2) else d
    d2 + luhnSum t (!isEven)

/-- `luhnCheck` of the payment service. -/
def luhnCheck (cardNumber : String) : Bool :=
  luhnSum cardNumber.data.reverse false % 10 == 0

/-- `validateCreditCard` of the payment service: strip spaces and hyphens,
require 13–19 digits, then the Luhn check. -/
def validateCreditCard (cardNumber : String) : Bool :=
  let cleanNumber := String.mk (cardNumber.data.filter (fun c => !(c.isWhitespace || c == '-')))
  isCardNumberFormat cleanNumber && luhnCheck cleanNumber

/-- `validateExpiryDate` of the payment service, with the wall clock passed
explicitly (`currentYear2` is the two-digit year): month `01`–`12`, two-digit
year, and not in the past. -/
def validateExpiryDate (currentYear2 currentMonth : ℕ) (expiryDate : String) : Bool :=
  match expiryDate.data with
  | [a, b, sl, c, d] =>
    let monthOk := (a == '0' && b.isDigit && b != '0') || (a == '1' && (b == '0' || b == '1' || b == '2'))
    if monthOk && sl == '/' && c.isDigit && d.isDigit then
      let expYear := natOfDigits [c, d]
      let expMonth := natOfDigits [a, b]
      !(expYear < currentYear2 || (expYear == currentYear2 && expMonth < currentMonth))
    else false
  | _ => false

/-- The inline card checks of the multi-currency `processPayment`
(`paymentService.js`): presence of the three card fields, `/^\d{13,19}$/`
on the whitespace-stripped number, `/^\d{2}\/\d{2}$/` on the expiry and
`/^\d{3,4}$/` on the CVV.  Neither `luhnCheck` nor `validateExpiryDate`
is invoked on this path. -/
def paymentServiceCardChecks (cardNumber expiryDate cvv : String) : Bool :=
  if cardNumber = ("") ∨ expiryDate = ("") ∨ cvv = ("") then false
  else isCardNumberFormat (stripSpaces cardNumber) && isMmYyShape expiryDate && isCvvShape cvv

/-! ## Session data model -/

/-- One passenger record, built field by field; `none` models a field not yet
assigned (JavaScript `undefined`). -/
structure PassengerRec where
  fullName : Option String := none
  email : Option String := none
  phone : Option String := none
  passport : Option String := none
  address : Option String := none
  emergencyContact : Option String := none
deriving DecidableEq, Repr

/-- A passenger record with all six fields assigned. -/
def PassengerRec.complete (p : PassengerRec) : Bool :=
  p.fullName.isSome && p.email.isSome && p.phone.isSome &&
    p.passport.isSome && p.address.isSome && p.emergencyContact.isSome

/-- Every record of the list has all six fields assigned. -/
def passengersPopulated (ps : List PassengerRec) : Bool :=
  ps.all PassengerRec.complete

/-- `searchParams`: the trip parameters the dialog consumes (`passengers` is
the requested passenger count). -/
structure SearchParams where
  passengers : ℕ
deriving DecidableEq, Repr

/-- The options a `BookingDialog` instance is begun (or re-begun via
`replaceDialog`) with. -/
structure DialogOptions where
  flightData : Option Flight
  searchParams : SearchParams
deriving DecidableEq, Repr

/-- The `bookingData` record assembled in `processPaymentStep` and handed to
`databaseService.saveBooking` on success (`bookingDate` is a wall-clock value
irrelevant to the claims and omitted). -/
structure BookingData where
  bookingId : String
  flight : Flight
  passengers : List PassengerRec
  searchParams : SearchParams
  status : String
  totalAmount : ℚ
  currency : String
  paymentId : Option String := none
  transactionId : Option String := none
deriving DecidableEq, Repr

/-- Result object returned by the payment collaborator. -/
structure PaymentResult where
  success : Bool
  paymentId : Option String := none
  id : Option String := none
  transactionId : Option String := none
  error : Option String := none
  message : Option String := none
deriving DecidableEq, Repr

/-- The request `processPaymentStep` sends to
`paymentService.processPayment` (constant sandbox fields such as `sourceId`
and the random `idempotencyKey` omitted; `amountMoney` duplicates
`amount`/`currency` and is omitted). -/
structure PaymentData where
  bookingId : String
  paymentMethod : String
  amount : ℤ
  currency : String
  cardNumber : Option String
  expiryDate : Option String
  cvv : Option String
  cardHolderName : Option String
  customerEmail : Option String
  customerName : Option String
  customerPhone : Option String
  billingAddress : Option String
deriving DecidableEq, Repr

/-- Environment inputs of one payment attempt: the generated booking id and
the answer of the collaborator (`none` models the call throwing). -/
structure Env where
  bookingId : String
  paymentResult : Option PaymentResult
deriving DecidableEq, Repr

/-- Identity of the thrown error inside the `try` block of
`processPaymentStep`. -/
inductive PayErr where
  | amountTooSmall
  | exceedsMax (currency : String)
  | serviceError
deriving DecidableEq, Repr

/-- Identities of the user-visible chat messages of `BookingDialog`. -/
inductive Msg where
  | noFlightSelected
  | startBooking
  | promptFullName
  | promptEmail
  | invalidEmail
  | promptPhone
  | promptPassport
  | promptAddress
  | promptEmergencyContact
  | passengerDetailsCollected
  | confirmBookingPrompt
  | bookingCancelled
  | paymentMethodPrompt
  | securePaymentInfo
  | promptCardNumber
  | invalidCardNumber
  | promptExpiryDate
  | invalidExpiryDate
  | promptCvv
  | invalidCvv
  | promptCardHolderName
  | priceCalculationError
  | invalidBookingAmount
  | processingPayment
  | paymentSuccessful
  | paymentFailed (errorMessage : String)
  | paymentProcessingFailed (e : PayErr)
  | confirmationEmailSent
  | bookingCompleted
deriving DecidableEq, Repr

/-- Observable events of a dialog turn: outbound messages and cards, and the
calls to the payment and persistence collaborators. -/
inductive Ev where
  | msg (m : Msg)
  | summaryCard (flight : Option Flight) (passengers : List PassengerRec)
  | confirmationCard (bd : BookingData)
  | callPayment (pd : PaymentData)
  | saveBooking (bd : BookingData)
deriving DecidableEq, Repr

/-- A resolved user reply, as delivered by the prompt dialogs: `TextPrompt`
yields the message text, `ConfirmPrompt` a boolean, `ChoicePrompt` the chosen
value; `nothing` models `stepContext.next()` with no argument
(`undefined`). -/
inductive Input where
  | nothing
  | text (s : String)
  | confirm (b : Bool)
  | choice (s : String)
deriving DecidableEq, Repr

/-- `stepContext.result` read as a string. -/
def Input.asText : Input → Option String
  | .text s => some s
  | _ => none

/-- `stepContext.result` read as a boolean (`ConfirmPrompt` result; any other
value is falsy under the `if (!confirmBooking)` test). -/
def Input.asBool : Input → Bool
  | .confirm b => b
  | _ => false

/-- `stepContext.result.value` of a `ChoicePrompt` result. -/
def Input.choiceValue : Input → String
  | .choice s => s
  | _ => ("")

/-- Which prompt dialog a suspended step is waiting on. -/
inductive PromptKind where
  | textP
  | confirmP
  | choiceP
deriving DecidableEq, Repr

/-- `stepContext.values` of the waterfall instance. -/
structure Values where
  flightData : Option Flight := none
  searchParams : SearchParams := ⟨0⟩
  passengers : List PassengerRec := []
  currentPassengerIndex : ℕ := 0
  paymentMethod : Option String := none
  cardNumber : Option String := none
  expiryDate : Option String := none
  cvv : Option String := none
  cardHolderName : Option String := none
  bookingData : Option BookingData := none
deriving DecidableEq, Repr

/-- The fresh `stepContext.values` of a newly begun waterfall instance
(each `replaceDialog` starts from this; the `searchParams` default is junk
that `initBookingStep` always overwrites before any other step reads it). -/
def Values.empty : Values := {}

/-- What a waterfall step returns: suspend on a prompt, fall through to the
next step with a result value, restart the dialog via `replaceDialog`, or
`endDialog`. -/
inductive Outcome where
  | prompt (k : PromptKind) (v : Values)
  | next (v : Values) (r : Input)
  | restart (o : DialogOptions)
  | halt (v : Values)
deriving DecidableEq, Repr

/-- Does the outcome end the dialog. -/
def Outcome.halts : Outcome → Bool
  | .halt _ => true
  | _ => false

/-- `if (!passengers[i]) passengers[i] = {}` — create the slot if absent. -/
def ensureSlot (l : List PassengerRec) (i : ℕ) : List PassengerRec :=
  if i < l.length then l else l ++ List.replicate (i + 1 - l.length) ({} : PassengerRec)

/-- Assignment to a field of `passengers[i]` (the slot exists at every
reachable use; out-of-range writes, which would throw in JavaScript, leave
the list unchanged). -/
def setPassenger (l : List PassengerRec) (i : ℕ) (f : PassengerRec → PassengerRec) : List PassengerRec :=
  l.set i (f (l.getD i {}))

/-! ## The sixteen waterfall steps of `BookingDialog`

Each step receives the result of the previous step (`r`), the session values, and
the dialog options, and yields the emitted events plus an `Outcome`.  The
translation is step-for-step from `BookingDialog`; validation failures call
`replaceDialog(this.id, stepContext.options)`, modelled as
`Outcome.restart o`. -/

/-- Step 1 `initBookingStep`: end with an error notice when no flight was
selected, otherwise seed the session values from the options. -/
def initBookingStep (o : DialogOptions) : List Ev × Outcome :=
  match o.flightData with
  | none => ([.msg .noFlightSelected], .halt Values.empty)
  | some f =>
    let v : Values :=
      { Values.empty with
          flightData := some f
          searchParams := o.searchParams
          passengers := []
          currentPassengerIndex := 0 }
    ([.msg .startBooking], .next v .nothing)

/-- Step 2 `collectPassengerNameStep`. -/
def collectPassengerNameStep (v : Values) : List Ev × Outcome :=
  if v.currentPassengerIndex < v.searchParams.passengers then
    ([.msg .promptFullName], .prompt .textP v)
  else
    ([], .next v .nothing)

/-- Step 3 `collectEmailStep`: store the name (creating the slot), prompt
for the email. -/
def collectEmailStep (v : Values) (r : Input) : List Ev × Outcome :=
  if v.currentPassengerIndex < v.searchParams.passengers then
    let ps := ensureSlot v.passengers v.currentPassengerIndex
    let ps := setPassenger ps v.currentPassengerIndex (fun p => { p with fullName := r.asText })
    ([.msg .promptEmail], .prompt .textP { v with passengers := ps })
  else
    ([], .next v .nothing)

/-- Step 4 `collectPhoneStep`: validate the email; on failure re-emit an
error and restart the whole dialog with the same options. -/
def collectPhoneStep (v : Values) (o : DialogOptions) (r : Input) : List Ev × Outcome :=
  if v.currentPassengerIndex < v.searchParams.passengers then
    let email := (r.asText).getD ("")
    if !isValidEmail email then
      ([.msg .invalidEmail], .restart o)
    else
      let ps := setPassenger v.passengers v.currentPassengerIndex (fun p => { p with email := some email })
      ([.msg .promptPhone], .prompt .textP { v with passengers := ps })
  else
    ([], .next v .nothing)

/-- Step 5 `collectPassportStep`. -/
def collectPassportStep (v : Values) (r : Input) : List Ev × Outcome :=
  if v.currentPassengerIndex < v.searchParams.passengers then
    let ps := setPassenger v.passengers v.currentPassengerIndex (fun p => { p with phone := r.asText })
    ([.msg .promptPassport], .prompt .textP { v with passengers := ps })
  else
    ([], .next v .nothing)

/-- Step 6 `collectAddressStep`. -/
def collectAddressStep (v : Values) (r : Input) : List Ev × Outcome :=
  if v.currentPassengerIndex < v.searchParams.passengers then
    let ps := setPassenger v.passengers v.currentPassengerIndex (fun p => { p with passport := r.asText })
    ([.msg .promptAddress], .prompt .textP { v with passengers := ps })
  else
    ([], .next v .nothing)

/-- Step 7 `collectEmergencyContactStep`. -/
def collectEmergencyContactStep (v : Values) (r : Input) : List Ev × Outcome :=
  if v.currentPassengerIndex < v.searchParams.passengers then
    let ps := setPassenger v.passengers v.currentPassengerIndex (fun p => { p with address := r.asText })
    ([.msg .promptEmergencyContact], .prompt .textP { v with passengers := ps })
  else
    ([], .next v .nothing)

/-- The booking-summary adaptive card (`createBookingSummaryCard`), reduced
to the data it renders (flight and passenger list; the card also displays a
`calculateTotalAmount`-derived total, not tracked by any claim). -/
def summaryCardOf (v : Values) : Ev :=
  .summaryCard v.flightData v.passengers

/-- Step 8 `showBookingSummaryStep`: store the emergency contact, advance the
passenger index; when passengers remain, acknowledge and restart the whole
dialog with the (unchanged) start options; otherwise render the summary. -/
def showBookingSummaryStep (v : Values) (o : DialogOptions) (r : Input) : List Ev × Outcome :=
  if v.currentPassengerIndex < v.searchParams.passengers then
    let ps := setPassenger v.passengers v.currentPassengerIndex (fun p => { p with emergencyContact := r.asText })
    let v1 := { v with passengers := ps, currentPassengerIndex := v.currentPassengerIndex + 1 }
    if v1.currentPassengerIndex < v1.searchParams.passengers then
      ([.msg .passengerDetailsCollected], .restart o)
    else
      ([summaryCardOf v1], .next v1 .nothing)
  else
    ([summaryCardOf v], .next v .nothing)

/-- Step 9 `confirmBookingStep`: yes/no confirmation prompt. -/
def confirmBookingStep (v : Values) : List Ev × Outcome :=
  ([.msg .confirmBookingPrompt], .prompt .confirmP v)

/-- Step 10 `collectPaymentMethodStep`: a decline cancels the booking and
ends the dialog; otherwise the payment-method choice prompt is shown. -/
def collectPaymentMethodStep (v : Values) (r : Input) : List Ev × Outcome :=
  if !r.asBool then
    ([.msg .bookingCancelled], .halt v)
  else
    ([.msg .paymentMethodPrompt], .prompt .choiceP v)

/-- `stepContext.result.value.toLowerCase().replace(" ", "_")` of
`collectCardNumberStep`. -/
def normalizePaymentMethod (s : String) : String :=
  String.mk (replaceFirstSpace (jsToLower s).data)

/-- Step 11 `collectCardNumberStep`: store the normalized payment method and
prompt for the card number. -/
def collectCardNumberStep (v : Values) (r : Input) : List Ev × Outcome :=
  let pm := normalizePaymentMethod r.choiceValue
  ([.msg .securePaymentInfo, .msg .promptCardNumber],
    .prompt .textP { v with paymentMethod := some pm })

/-- Step 12 `collectExpiryDateStep`: the card number must be exactly 16
digits after removing whitespace, else the dialog restarts. -/
def collectExpiryDateStep (v : Values) (o : DialogOptions) (r : Input) : List Ev × Outcome :=
  let cardNumber := stripSpaces ((r.asText).getD (""))
  if !isSixteenDigits cardNumber then
    ([.msg .invalidCardNumber], .restart o)
  else
    ([.msg .promptExpiryDate], .prompt .textP { v with cardNumber := some cardNumber })

/-- Step 13 `collectCvvStep`: the expiry must match `MM/YY` shape, else the
dialog restarts. -/
def collectCvvStep (v : Values) (o : DialogOptions) (r : Input) : List Ev × Outcome :=
  let expiryDate := (r.asText).getD ("")
  if !isMmYyShape expiryDate then
    ([.msg .invalidExpiryDate], .restart o)
  else
    ([.msg .promptCvv], .prompt .textP { v with expiryDate := some expiryDate })

/-- Step 14 `collectCardHolderNameStep`: the CVV must be 3–4 digits, else the
dialog restarts. -/
def collectCardHolderNameStep (v : Values) (o : DialogOptions) (r : Input) : List Ev × Outcome :=
  let cvv := (r.asText).getD ("")
  if !isCvvShape cvv then
    ([.msg .invalidCvv], .restart o)
  else
    ([.msg .promptCardHolderName], .prompt .textP { v with cvv := some cvv })

/-- The payment request assembled in `processPaymentStep`. -/
def buildPaymentData (v : Values) (bookingId : String) (amount : ℤ) (currency : String) : PaymentData :=
  let first := v.passengers.getD 0 ({} : PassengerRec)
  { bookingId := bookingId
    paymentMethod := jsOrStr v.paymentMethod ("credit_card")
    amount := amount
    currency := currency
    cardNumber := v.cardNumber
    expiryDate := v.expiryDate
    cvv := v.cvv
    cardHolderName := v.cardHolderName
    customerEmail := first.email
    customerName := first.fullName
    customerPhone := first.phone
    billingAddress := first.address }

/-- Step 15 `processPaymentStep`: parse the price, reject unparseable or
non-positive amounts, convert to minor units, enforce the per-currency
bounds, call the payment collaborator, and persist the booking only on a
successful result. -/
def processPaymentStep (v : Values) (r : Input) (e : Env) : List Ev × Outcome :=
  let v := { v with cardHolderName := r.asText }
  let priceString := (v.flightData.map Flight.price).getD ("")
  let parsed := parsePrice priceString
  let basePrice := parsed.1
  let currency := parsed.2
  if basePrice = 0 then
    ([.msg .priceCalculationError], .halt v)
  else
    let totalAmount := totalOf basePrice v.passengers.length
    if totalAmount ≤ 0 then
      ([.msg .invalidBookingAmount], .halt v)
    else
      let bookingData : BookingData :=
        { bookingId := e.bookingId
          flight := (v.flightData).getD ⟨("")⟩
          passengers := v.passengers
          searchParams := v.searchParams
          status := ("PENDING_PAYMENT")
          totalAmount := totalAmount
          currency := currency }
      let v := { v with bookingData := some bookingData }
      let m := toSmallestUnit currency totalAmount
      if m < 1 then
        ([.msg .processingPayment, .msg (.paymentProcessingFailed .amountTooSmall)], .halt v)
      else if m > maxLimitFor currency then
        ([.msg .processingPayment, .msg (.paymentProcessingFailed (.exceedsMax currency))], .halt v)
      else
        let pd := buildPaymentData v e.bookingId m currency
        match e.paymentResult with
        | none =>
          ([.msg .processingPayment, .callPayment pd,
              .msg (.paymentProcessingFailed .serviceError)], .halt v)
        | some pr =>
          if pr.success then
            let bd := { bookingData with
                          status := ("CONFIRMED")
                          paymentId := jsOrOpt pr.paymentId pr.id
                          transactionId := pr.transactionId }
            let v := { v with bookingData := some bd }
            ([.msg .processingPayment, .callPayment pd, .saveBooking bd,
                .msg .paymentSuccessful], .next v .nothing)
          else
            ([.msg .processingPayment, .callPayment pd,
                .msg (.paymentFailed (jsOrStr pr.error (jsOrStr pr.message ("Unknown payment error"))))],
              .halt v)

/-- Step 16 `finalConfirmationStep`: confirmation card plus closing
messages, then the dialog ends (the `none` branch is unreachable — the step
only runs after a successful payment stored `bookingData`). -/
def finalConfirmationStep (v : Values) : List Ev × Outcome :=
  match v.bookingData with
  | some bd => ([.confirmationCard bd, .msg .confirmationEmailSent, .msg .bookingCompleted], .halt v)
  | none => ([], .halt v)

/-- The waterfall step table of `BookingDialog` (indices past the last step
end the dialog, as the waterfall runner does). -/
def runStep : ℕ → Values → DialogOptions → Input → Env → List Ev × Outcome
  | 0, _, o, _, _ => initBookingStep o
  | 1, v, _, _, _ => collectPassengerNameStep v
  | 2, v, _, r, _ => collectEmailStep v r
  | 3, v, o, r, _ => collectPhoneStep v o r
  | 4, v, _, r, _ => collectPassportStep v r
  | 5, v, _, r, _ => collectAddressStep v r
  | 6, v, _, r, _ => collectEmergencyContactStep v r
  | 7, v, o, r, _ => showBookingSummaryStep v o r
  | 8, v, _, _, _ => confirmBookingStep v
  | 9, v, _, r, _ => collectPaymentMethodStep v r
  | 10, v, _, r, _ => collectCardNumberStep v r
  | 11, v, o, r, _ => collectExpiryDateStep v o r
  | 12, v, o, r, _ => collectCvvStep v o r
  | 13, v, o, r, _ => collectCardHolderNameStep v o r
  | 14, v, _, r, e => processPaymentStep v r e
  | 15, v, _, _, _ => finalConfirmationStep v
  | _ + 16, v, _, _, _ => ([], .halt v)

/-- A suspended dialog: the step that will consume the next user reply, the
prompt kind it is waiting on, and the session values. -/
structure Config where
  resume : ℕ
  kind : PromptKind
  vals : Values
deriving DecidableEq, Repr

/-- Run steps from index `i` with incoming result `r` until the dialog
prompts (suspends) or ends; `restart` re-enters step 0 with fresh values, as
`replaceDialog` does.  `fuel` only bounds the internal step chain, which is
short; every theorem quantifies over it or fixes it large enough. -/
def advance : ℕ → ℕ → Values → DialogOptions → Input → Env → List Ev × Option Config
  | 0, _, _, _, _, _ => ([], none)
  | fuel + 1, i, v, o, r, e =>
    match runStep i v o r e with
    | (evs, .prompt k v1) => (evs, some ⟨i + 1, k, v1⟩)
    | (evs, .next v1 r1) =>
      let rest := advance fuel (i + 1) v1 o r1 e
      (evs ++ rest.1, rest.2)
    | (evs, .restart o1) =>
      let rest := advance fuel 0 Values.empty o1 .nothing e
      (evs ++ rest.1, rest.2)
    | (evs, .halt _) => (evs, none)

/-- Does the reply fit what the pending prompt returns (`TextPrompt` yields
text, `ConfirmPrompt` a boolean, `ChoicePrompt` a choice; each prompt
re-prompts until it gets a reply of its kind). -/
def kindMatches : PromptKind → Input → Bool
  | .textP, .text _ => true
  | .confirmP, .confirm _ => true
  | .choiceP, .choice _ => true
  | _, _ => false

/-- Deliver one user reply to a suspended dialog; a reply the pending prompt
cannot parse leaves the dialog suspended at the same prompt. -/
def feed (fuel : ℕ) (c : Config) (o : DialogOptions) (r : Input) (e : Env) : List Ev × Option Config :=
  if kindMatches c.kind r then advance fuel c.resume c.vals o r e
  else ([], some c)

/-- Deliver a list of user replies in order. -/
def runTurns (fuel : ℕ) (c : Config) (o : DialogOptions) : List Input → Env → List Ev × Option Config
  | [], _ => ([], some c)
  | r :: rest, e =>
    match feed fuel c o r e with
    | (evs, none) => (evs, none)
    | (evs, some c1) =>
      let next := runTurns fuel c1 o rest e
      (evs ++ next.1, next.2)

/-- A whole session: begin the dialog with `o`, then deliver the replies. -/
def sessionRun (fuel : ℕ) (o : DialogOptions) (inputs : List Input) (e : Env) : List Ev × Option Config :=
  match advance fuel 0 Values.empty o .nothing e with
  | (evs, none) => (evs, none)
  | (evs, some c) =>
    let rest := runTurns fuel c o inputs e
    (evs ++ rest.1, rest.2)

/-- The session values `initBookingStep` produces from the dialog options. -/
def initialValuesOf (o : DialogOptions) (f : Flight) : Values :=
  { Values.empty with
      flightData := some f
      searchParams := o.searchParams
      passengers := []
      currentPassengerIndex := 0 }

/-! ## Concrete fixtures used by witnesses and counterexamples -/

/-- A fully collected passenger record. -/
def aliceRec : PassengerRec :=
  { fullName := some ("Alice Doe")
    email := some ("alice@mail.com")
    phone := some ("+1 555 0100")
    passport := some ("P1234567")
    address := some ("1 Main St")
    emergencyContact := some ("Bob 555 0101") }

/-- Start options for a one-passenger booking on a 485-dollar flight. -/
def onePassengerOptions : DialogOptions := ⟨some ⟨("$485")⟩, ⟨1⟩⟩

/-- Start options for a two-passenger booking on the same flight. -/
def twoPassengerOptions : DialogOptions := ⟨some ⟨("$485")⟩, ⟨2⟩⟩

/-- Environment with a successful payment collaborator answer. -/
def okPaymentEnv : Env :=
  ⟨("BK1"), some { success := true, paymentId := some ("PAY1"), transactionId := some ("TX1") }⟩

/-- The six replies collecting one passenger. -/
def passengerInputs : List Input :=
  [.text ("Alice Doe"), .text ("alice@mail.com"), .text ("+1 555 0100"),
    .text ("P1234567"), .text ("1 Main St"), .text ("Bob 555 0101")]

/-- A complete happy-path session for one passenger paying by credit card. -/
def fullSessionInputs : List Input :=
  passengerInputs ++
    [.confirm true, .choice ("Credit Card"), .text ("4532759734545858"),
      .text ("12/30"), .text ("123"), .text ("Alice Doe")]

/-! ## Shared lemmas -/

/-- Every entry of the `maxLimits` table, and the lookup default, is at least
99,999,999. -/
theorem maxLimitFor_ge (c : String) : (99999999 : ℤ) ≤ maxLimitFor c := by
  unfold maxLimitFor
  split_ifs <;> norm_num

/-- The code-side currency chain and the spec-side chain are the same
function. -/
theorem detectCurrency_eq_spec (s : String) : detectCurrency s = specDetectCurrency s := rfl

/-- Characterization of `jsRound` used to evaluate concrete roundings. -/
theorem jsRound_eq {q : ℚ} {z : ℤ} (h1 : (z : ℚ) ≤ q + 1 / 2) (h2 : q + 1 / 2 < z + 1) :
    jsRound q = z := by
  unfold jsRound
  exact Int.floor_eq_iff.mpr ⟨h1, h2⟩

/-- `Math.round` is the identity on integers. -/
theorem jsRound_intCast (z : ℤ) : jsRound ((z : ℚ)) = z := by
  apply jsRound_eq <;> norm_num

/-! ## Claim theorems -/

/-- C1: for every price string, `_parsePrice` detects the currency exactly as
the spec describes — scanning for INR (₹ or INR), then USD ($ or USD), then
EUR (€ or EUR), then GBP (£ or GBP), first match winning, USD when nothing
matches; in particular `₹3,800 USD` resolves to INR and `$1,200` to amount
1200 with currency USD. -/
theorem C1_currency_detection :
    (∀ s : String, (parsePrice s).2 = specDetectCurrency s) ∧
    parsePrice ("₹3,800 USD") = (3800, ("INR")) ∧
    parsePrice ("$1,200") = (1200, ("USD")) := by
  refine ⟨?_, by decide, by decide⟩
  intro s
  by_cases h : s = ("")
  · subst h; decide
  · simp only [parsePrice, if_neg h]
    cases jsParseFloat (jsCleanNumeric s) <;>
      simp [detectCurrency_eq_spec]

/-- C2: the total is `basePrice × passengerCount` (485 × 3 = 1455), converted
to minor units by `Math.round` of the total for JPY/KRW and of 100 × the
total for every other currency; the rounding is round-half-up
(USD 19.999 ⇒ 2000 minor units, JPY 1500.7 ⇒ 1501, and halves round
upward). -/
theorem C2_amount_totaling_and_rounding :
    (∀ (b : ℚ) (n : ℕ), totalOf b n = b * n) ∧
    totalOf 485 3 = 1455 ∧
    toSmallestUnit ("USD") (19999 / 1000) = 2000 ∧
    toSmallestUnit ("JPY") (15007 / 10) = 1501 ∧
    (∀ t : ℚ, toSmallestUnit ("JPY") t = jsRound t ∧ toSmallestUnit ("KRW") t = jsRound t) ∧
    (∀ (c : String) (t : ℚ), c ≠ ("JPY") → c ≠ ("KRW") →
      toSmallestUnit c t = jsRound (t * 100)) ∧
    (∀ q : ℚ, (jsRound q : ℚ) ≤ q + 1 / 2 ∧ q - 1 / 2 < (jsRound q : ℚ)) ∧
    (∀ z : ℤ, jsRound ((z : ℚ) + 1 / 2) = z + 1) := by
  refine ⟨fun b n => rfl, by norm_num [totalOf], ?_, ?_, ?_, ?_, ?_, ?_⟩
  · rw [toSmallestUnit, if_neg (by decide)]
    apply jsRound_eq <;> norm_num
  · rw [toSmallestUnit, if_pos (Or.inl rfl)]
    apply jsRound_eq <;> norm_num
  · intro t
    constructor <;> simp [toSmallestUnit]
  · intro c t h1 h2
    simp [toSmallestUnit, h1, h2]
  · intro q
    constructor
    · exact_mod_cast Int.floor_le (q + 1 / 2)
    · have := Int.lt_floor_add_one (q + 1 / 2)
      unfold jsRound
      push_cast at this ⊢
      linarith
  · intro z
    unfold jsRound
    have h : (z : ℚ) + 1 / 2 + 1 / 2 = ((z + 1 : ℤ) : ℚ) := by push_cast; ring
    rw [h, Int.floor_intCast]

/-- C2 witness: the general minor-unit conversion conjunct applied to EUR
(neither JPY nor KRW) at amount 1. -/
theorem C2_amount_totaling_and_rounding_witness :
    (("EUR") ≠ ("JPY") ∧ ("EUR") ≠ ("KRW")) ∧
    toSmallestUnit ("EUR") 1 = jsRound (1 * 100) :=
  ⟨⟨by decide, by decide⟩,
    C2_amount_totaling_and_rounding.2.2.2.2.2.1 ("EUR") 1 (by decide) (by decide)⟩

/-- C3: the payment attempt is rejected with a user-visible error and the
session ends (no clamp, no dialog restart) when the minor-unit amount is
below 1 or exceeds the per-currency maximum — 99,999,999 for USD, EUR, GBP
and JPY, 999,999,999 for INR, and 99,999,999 for any unknown currency. -/
theorem C3_minor_unit_bounds :
    (maxLimitFor ("USD") = 99999999 ∧ maxLimitFor ("EUR") = 99999999 ∧
      maxLimitFor ("GBP") = 99999999 ∧ maxLimitFor ("JPY") = 99999999 ∧
      maxLimitFor ("INR") = 999999999) ∧
    (∀ c : String, c ≠ ("USD") → c ≠ ("INR") → c ≠ ("EUR") → c ≠ ("GBP") → c ≠ ("JPY") →
      maxLimitFor c = 99999999) ∧
    (∀ (v : Values) (o : DialogOptions) (r : Input) (e : Env) (f : Flight) (b : ℚ) (cur : String),
      v.flightData = some f →
      parsePrice f.price = (b, cur) →
      b ≠ 0 →
      0 < totalOf b v.passengers.length →
      maxLimitFor cur < toSmallestUnit cur (totalOf b v.passengers.length) →
      (runStep 14 v o r e).1 =
        [.msg .processingPayment, .msg (.paymentProcessingFailed (.exceedsMax cur))] ∧
      (runStep 14 v o r e).2.halts = true) ∧
    (∀ (v : Values) (o : DialogOptions) (r : Input) (e : Env) (f : Flight) (b : ℚ) (cur : String),
      v.flightData = some f →
      parsePrice f.price = (b, cur) →
      b ≠ 0 →
      0 < totalOf b v.passengers.length →
      toSmallestUnit cur (totalOf b v.passengers.length) < 1 →
      (runStep 14 v o r e).1 =
        [.msg .processingPayment, .msg (.paymentProcessingFailed .amountTooSmall)] ∧
      (runStep 14 v o r e).2.halts = true) := by
  refine ⟨⟨by decide, by decide, by decide, by decide, by decide⟩, ?_, ?_, ?_⟩
  · intro c h1 h2 h3 h4 h5
    simp [maxLimitFor, h1, h2, h3, h4, h5]
  · intro v o r e f b cur hf hp hb hpos hmax
    have hm1 : ¬ toSmallestUnit cur (totalOf b v.passengers.length) < 1 := by
      have := maxLimitFor_ge cur
      omega
    constructor <;>
      simp [runStep, processPaymentStep, hf, hp, hb, not_le.mpr hpos, hm1, hmax, Outcome.halts]
  · intro v o r e f b cur hf hp hb hpos hsmall
    constructor <;>
      simp [runStep, processPaymentStep, hf, hp, hb, not_le.mpr hpos, hsmall, Outcome.halts]

/-- C3 witness: a one-passenger USD booking of 2,000,000 dollars produces
200,000,000 minor units, above the USD limit, and is rejected with the
over-limit error. -/
theorem C3_minor_unit_bounds_witness :
    (parsePrice ("$2000000") = (2000000, ("USD")) ∧
      (2000000 : ℚ) ≠ 0 ∧
      0 < totalOf 2000000 [aliceRec].length ∧
      maxLimitFor ("USD") < toSmallestUnit ("USD") (totalOf 2000000 [aliceRec].length)) ∧
    ((runStep 14 { flightData := some ⟨("$2000000")⟩, passengers := [aliceRec] }
        onePassengerOptions (.text ("Alice Doe")) okPaymentEnv).1 =
      [.msg .processingPayment, .msg (.paymentProcessingFailed (.exceedsMax ("USD")))] ∧
      (runStep 14 { flightData := some ⟨("$2000000")⟩, passengers := [aliceRec] }
        onePassengerOptions (.text ("Alice Doe")) okPaymentEnv).2.halts = true) := by
  have h1 : parsePrice ("$2000000") = (2000000, ("USD")) := by decide
  have h2 : (2000000 : ℚ) ≠ 0 := by norm_num
  have h3 : 0 < totalOf 2000000 [aliceRec].length := by norm_num [totalOf]
  have h4 : maxLimitFor ("USD") < toSmallestUnit ("USD") (totalOf 2000000 [aliceRec].length) := by
    have hs : toSmallestUnit ("USD") (totalOf 2000000 [aliceRec].length) = 200000000 := by
      rw [toSmallestUnit, if_neg (by decide)]
      apply jsRound_eq <;> norm_num [totalOf]
    rw [hs]
    decide
  exact ⟨⟨h1, h2, h3, h4⟩,
    C3_minor_unit_bounds.2.2.1 _ onePassengerOptions (.text ("Alice Doe")) okPaymentEnv
      ⟨("$2000000")⟩ 2000000 ("USD") rfl h1 h2 h3 h4⟩

/-- C4: a reply failing a step validator (invalid email, non-16-digit card
number, malformed MM/YY expiry, non-3/4-digit CVV) triggers a user-visible
error and a restart of the whole step sequence via the unchanged start
options, and the restarted dialog begins again at step 1 with the same
flight and `searchParams` and an empty passengers array. -/
theorem C4_validation_restart :
    (∀ (v : Values) (o : DialogOptions) (e : Env) (s : String),
      v.currentPassengerIndex < v.searchParams.passengers →
      isValidEmail s = false →
      runStep 3 v o (.text s) e = ([.msg .invalidEmail], .restart o)) ∧
    (∀ (v : Values) (o : DialogOptions) (e : Env) (s : String),
      isSixteenDigits (stripSpaces s) = false →
      runStep 11 v o (.text s) e = ([.msg .invalidCardNumber], .restart o)) ∧
    (∀ (v : Values) (o : DialogOptions) (e : Env) (s : String),
      isMmYyShape s = false →
      runStep 12 v o (.text s) e = ([.msg .invalidExpiryDate], .restart o)) ∧
    (∀ (v : Values) (o : DialogOptions) (e : Env) (s : String),
      isCvvShape s = false →
      runStep 13 v o (.text s) e = ([.msg .invalidCvv], .restart o)) ∧
    (∀ (o : DialogOptions) (f : Flight) (e : Env) (fuel : ℕ),
      o.flightData = some f →
      0 < o.searchParams.passengers →
      advance (fuel + 2) 0 Values.empty o .nothing e =
        ([.msg .startBooking, .msg .promptFullName], some ⟨2, .textP, initialValuesOf o f⟩) ∧
      (initialValuesOf o f).searchParams = o.searchParams ∧
      (initialValuesOf o f).flightData = some f ∧
      (initialValuesOf o f).passengers = [] ∧
      (initialValuesOf o f).currentPassengerIndex = 0) := by
  refine ⟨?_, ?_, ?_, ?_, ?_⟩
  · intro v o e s hidx hbad
    simp [runStep, collectPhoneStep, hidx, Input.asText, hbad]
  · intro v o e s hbad
    simp [runStep, collectExpiryDateStep, Input.asText, hbad]
  · intro v o e s hbad
    simp [runStep, collectCvvStep, Input.asText, hbad]
  · intro v o e s hbad
    simp [runStep, collectCardHolderNameStep, Input.asText, hbad]
  · intro o f e fuel hf hpos
    refine ⟨?_, rfl, rfl, rfl, rfl⟩
    show advance ((fuel + 1) + 1) 0 Values.empty o .nothing e = _
    simp [advance, runStep, initBookingStep, hf, collectPassengerNameStep, initialValuesOf, hpos]

/-- C4 witness: an invalid email at the email-validation step restarts the
dialog, and the restarted dialog re-prompts from step 1 with the original
options intact. -/
theorem C4_validation_restart_witness :
    (({ searchParams := ⟨2⟩, currentPassengerIndex := 0 } : Values).currentPassengerIndex <
        ({ searchParams := ⟨2⟩, currentPassengerIndex := 0 } : Values).searchParams.passengers ∧
      isValidEmail ("bad-email") = false ∧
      isSixteenDigits (stripSpaces ("1234")) = false ∧
      isMmYyShape ("13-25") = false ∧
      isCvvShape ("12") = false ∧
      twoPassengerOptions.flightData = some ⟨("$485")⟩ ∧
      0 < twoPassengerOptions.searchParams.passengers) ∧
    runStep 3 { searchParams := ⟨2⟩, currentPassengerIndex := 0 } twoPassengerOptions
      (.text ("bad-email")) okPaymentEnv = ([.msg .invalidEmail], .restart twoPassengerOptions) ∧
    runStep 11 { searchParams := ⟨2⟩ } twoPassengerOptions (.text ("1234")) okPaymentEnv =
      ([.msg .invalidCardNumber], .restart twoPassengerOptions) ∧
    runStep 12 { searchParams := ⟨2⟩ } twoPassengerOptions (.text ("13-25")) okPaymentEnv =
      ([.msg .invalidExpiryDate], .restart twoPassengerOptions) ∧
    runStep 13 { searchParams := ⟨2⟩ } twoPassengerOptions (.text ("12")) okPaymentEnv =
      ([.msg .invalidCvv], .restart twoPassengerOptions) ∧
    advance (0 + 2) 0 Values.empty twoPassengerOptions .nothing okPaymentEnv =
      ([.msg .startBooking, .msg .promptFullName],
        some ⟨2, .textP, initialValuesOf twoPassengerOptions ⟨("$485")⟩⟩) :=
  ⟨⟨by decide, by decide, by decide, by decide, by decide, by decide, by decide⟩,
    C4_validation_restart.1 _ _ okPaymentEnv _ (by decide) (by decide),
    C4_validation_restart.2.1 _ _ okPaymentEnv _ (by decide),
    C4_validation_restart.2.2.1 _ _ okPaymentEnv _ (by decide),
    C4_validation_restart.2.2.2.1 _ _ okPaymentEnv _ (by decide),
    (C4_validation_restart.2.2.2.2 twoPassengerOptions ⟨("$485")⟩ okPaymentEnv 0
      (by decide) (by decide)).1⟩

/-- C5 (demonstrating the defect): after passenger 1 of 2 completes all six
fields, the dialog emits the acknowledgement and restarts — but the restart
arguments are the unchanged start options, which do not carry the collected
passengers, and the re-initialized session has an empty passengers array and
index 0.  Collected passenger records do not survive the restart. -/
theorem C5_passenger_loop_restart_loses_data :
    sessionRun 64 twoPassengerOptions passengerInputs okPaymentEnv =
      ([.msg .startBooking, .msg .promptFullName, .msg .promptEmail, .msg .promptPhone,
        .msg .promptPassport, .msg .promptAddress, .msg .promptEmergencyContact,
        .msg .passengerDetailsCollected, .msg .startBooking, .msg .promptFullName],
        some ⟨2, .textP, initialValuesOf twoPassengerOptions ⟨("$485")⟩⟩) ∧
    (initialValuesOf twoPassengerOptions ⟨("$485")⟩).passengers = [] ∧
    (initialValuesOf twoPassengerOptions ⟨("$485")⟩).currentPassengerIndex = 0 ∧
    twoPassengerOptions.searchParams.passengers = 2 :=
  ⟨by decide, rfl, rfl, rfl⟩

/-- C7: a price whose numeric extraction fails parses to amount 0; an amount
of 0 is rejected at the payment step with the price-calculation error and
the session ends without any collaborator call; a non-positive total is
likewise rejected. -/
theorem C7_price_failure_rejected :
    (∀ s : String, jsParseFloat (jsCleanNumeric s) = none → (parsePrice s).1 = 0) ∧
    (∀ (v : Values) (o : DialogOptions) (r : Input) (e : Env) (f : Flight),
      v.flightData = some f →
      (parsePrice f.price).1 = 0 →
      (runStep 14 v o r e).1 = [.msg .priceCalculationError] ∧
      (runStep 14 v o r e).2.halts = true ∧
      (∀ pd, Ev.callPayment pd ∉ (runStep 14 v o r e).1) ∧
      (∀ bd, Ev.saveBooking bd ∉ (runStep 14 v o r e).1)) ∧
    (∀ (v : Values) (o : DialogOptions) (r : Input) (e : Env) (f : Flight) (b : ℚ) (cur : String),
      v.flightData = some f →
      parsePrice f.price = (b, cur) →
      b ≠ 0 →
      totalOf b v.passengers.length ≤ 0 →
      (runStep 14 v o r e).1 = [.msg .invalidBookingAmount] ∧
      (runStep 14 v o r e).2.halts = true) := by
  refine ⟨?_, ?_, ?_⟩
  · intro s h
    by_cases hs : s = ("")
    · subst hs; rfl
    · simp [parsePrice, hs, h]
  · intro v o r e f hf h0
    have hres : runStep 14 v o r e = ([.msg .priceCalculationError],
        .halt { v with cardHolderName := r.asText }) := by
      simp [runStep, processPaymentStep, hf, h0]
    refine ⟨by simp [hres], by simp [hres, Outcome.halts], ?_, ?_⟩ <;>
      intro x <;> simp [hres]
  · intro v o r e f b cur hf hp hb htot
    constructor <;>
      simp [runStep, processPaymentStep, hf, hp, hb, htot, Outcome.halts]

/-- C7 witness: the price `N/A` has no digits, parses to 0, and the payment
step rejects it; a parsable price with zero passengers yields a non-positive
total and is rejected as an invalid amount. -/
theorem C7_price_failure_rejected_witness :
    (jsParseFloat (jsCleanNumeric ("N/A")) = none ∧
      (parsePrice ("N/A")).1 = 0 ∧
      parsePrice ("$485") = (485, ("USD")) ∧
      totalOf 485 ([] : List PassengerRec).length ≤ 0) ∧
    (runStep 14 ({ flightData := some ⟨("N/A")⟩, passengers := [aliceRec] } : Values)
        onePassengerOptions (.text ("Alice Doe")) okPaymentEnv).1 =
      [.msg .priceCalculationError] ∧
    (runStep 14 ({ flightData := some ⟨("$485")⟩, passengers := [] } : Values)
        onePassengerOptions (.text ("Alice Doe")) okPaymentEnv).1 =
      [.msg .invalidBookingAmount] := by
  have ha : totalOf 485 ([] : List PassengerRec).length ≤ 0 := by norm_num [totalOf]
  refine ⟨⟨by decide, by decide, by decide, ha⟩, ?_, ?_⟩
  · exact (C7_price_failure_rejected.2.1 _ onePassengerOptions (.text ("Alice Doe"))
      okPaymentEnv ⟨("N/A")⟩ rfl (by decide)).1
  · exact (C7_price_failure_rejected.2.2 _ onePassengerOptions (.text ("Alice Doe"))
      okPaymentEnv ⟨("$485")⟩ 485 ("USD") rfl (by decide) (by norm_num) ha).1

/-- Stripping whitespace is idempotent. -/
theorem stripSpaces_idem (s : String) : stripSpaces (stripSpaces s) = stripSpaces s := by
  simp [stripSpaces, List.filter_filter, Bool.and_self]

/-- C8 counterexample: the sixteen-ones card number passes the 16-digit
check of the dialog (the card-number step stores it and prompts for the expiry
instead of rejecting), and together with the past expiry `01/20` and CVV
`123` it passes every check of the `processPayment` path of the service — yet it
fails the Luhn check, and `01/20` fails the expired-date validator (clock
October 2026).  `luhnCheck` and `validateExpiryDate` exist in the service
but are not called on that path. -/
theorem C8_luhn_and_expiry_not_enforced :
    isSixteenDigits (stripSpaces ("1111111111111111")) = true ∧
    runStep 11 ({ searchParams := ⟨1⟩ } : Values) onePassengerOptions
        (.text ("1111111111111111")) okPaymentEnv =
      ([.msg .promptExpiryDate],
        .prompt .textP
          { ({ searchParams := ⟨1⟩ } : Values) with cardNumber := some ("1111111111111111") }) ∧
    isMmYyShape ("01/20") = true ∧
    isCvvShape ("123") = true ∧
    paymentServiceCardChecks ("1111111111111111") ("01/20") ("123") = true ∧
    luhnCheck ("1111111111111111") = false ∧
    validateCreditCard ("1111111111111111") = false ∧
    validateExpiryDate 26 10 ("01/20") = false := by
  decide

/-- C8 (amended): the constraints actually enforced on the path to the
payment collaborator are: 16 digits at the dialog (hence the 13–19-digit
format check of the service), an expiry matching the two-digit/two-digit
shape, and a 3–4-digit CVV — every card passing the dialog validators passes
the service checks; and the card fields submitted to the collaborator are
exactly the stored session values.  Luhn validity and a not-in-the-past
expiry are not required. -/
theorem C8_enforced_card_checks :
    (∀ cardNumber expiryDate cvv : String,
      isSixteenDigits (stripSpaces cardNumber) = true →
      isMmYyShape expiryDate = true →
      isCvvShape cvv = true →
      paymentServiceCardChecks (stripSpaces cardNumber) expiryDate cvv = true) ∧
    (∀ (v : Values) (r : Input) (e : Env) (pd : PaymentData),
      Ev.callPayment pd ∈ (processPaymentStep v r e).1 →
      pd.cardNumber = v.cardNumber ∧ pd.expiryDate = v.expiryDate ∧ pd.cvv = v.cvv) := by
  constructor
  · intro cn exp cvv h16 hsh hcv
    have hlen : (stripSpaces cn).data.length = 16 ∧ (stripSpaces cn).data.all Char.isDigit = true := by
      simpa [isSixteenDigits] using h16
    have hcnne : ¬ stripSpaces cn = ("") := by
      intro h
      rw [h] at hlen
      simp at hlen
    have hexne : ¬ exp = ("") := by
      intro h
      rw [h] at hsh
      simp [isMmYyShape] at hsh
    have hcvne : ¬ cvv = ("") := by
      intro h
      rw [h] at hcv
      simp [isCvvShape] at hcv
    rw [paymentServiceCardChecks, if_neg (by simp [hcnne, hexne, hcvne])]
    simp [stripSpaces_idem, isCardNumberFormat, hlen.1, hlen.2, hsh, hcv]
  · intro v r e pd hmem
    simp only [processPaymentStep] at hmem
    split_ifs at hmem <;> try simp at hmem
    rcases hpr : e.paymentResult with _ | pr <;> rw [hpr] at hmem
    · simp at hmem
      subst hmem
      exact ⟨rfl, rfl, rfl⟩
    · by_cases hs : pr.success = true <;> simp [hs] at hmem <;>
        (subst hmem; exact ⟨rfl, rfl, rfl⟩)

/-- C8 witness: the sandbox test card, a future-shaped expiry and a 3-digit
CVV pass the dialog validators and hence the service checks. -/
theorem C8_enforced_card_checks_witness :
    (isSixteenDigits (stripSpaces ("4532759734545858")) = true ∧
      isMmYyShape ("12/30") = true ∧ isCvvShape ("123") = true) ∧
    paymentServiceCardChecks (stripSpaces ("4532759734545858")) ("12/30") ("123") = true :=
  ⟨⟨by decide, by decide, by decide⟩,
    C8_enforced_card_checks.1 ("4532759734545858") ("12/30") ("123")
      (by decide) (by decide) (by decide)⟩

/-! ## Reachability invariant for the passenger-collection loop (C6) -/

/-- Invariant over suspended dialog configurations, for a session begun with
options `o` requesting `n ≥ 1` passengers: during collection the index is 0
and the single in-progress record has exactly the fields of the preceding
steps; from the confirmation prompt on, the passenger list is complete. -/
def StageInv (n : ℕ) (o : DialogOptions) (c : Config) : Prop :=
  c.vals.searchParams = o.searchParams ∧
  ((c.resume = 2 ∧ c.kind = .textP ∧ c.vals.currentPassengerIndex = 0 ∧
      c.vals.passengers = []) ∨
   (c.resume = 3 ∧ c.kind = .textP ∧ c.vals.currentPassengerIndex = 0 ∧
      ∃ p : PassengerRec, c.vals.passengers = [p] ∧ p.fullName.isSome = true) ∨
   (c.resume = 4 ∧ c.kind = .textP ∧ c.vals.currentPassengerIndex = 0 ∧
      ∃ p : PassengerRec, c.vals.passengers = [p] ∧ p.fullName.isSome = true ∧
        p.email.isSome = true) ∨
   (c.resume = 5 ∧ c.kind = .textP ∧ c.vals.currentPassengerIndex = 0 ∧
      ∃ p : PassengerRec, c.vals.passengers = [p] ∧ p.fullName.isSome = true ∧
        p.email.isSome = true ∧ p.phone.isSome = true) ∨
   (c.resume = 6 ∧ c.kind = .textP ∧ c.vals.currentPassengerIndex = 0 ∧
      ∃ p : PassengerRec, c.vals.passengers = [p] ∧ p.fullName.isSome = true ∧
        p.email.isSome = true ∧ p.phone.isSome = true ∧ p.passport.isSome = true) ∨
   (c.resume = 7 ∧ c.kind = .textP ∧ c.vals.currentPassengerIndex = 0 ∧
      ∃ p : PassengerRec, c.vals.passengers = [p] ∧ p.fullName.isSome = true ∧
        p.email.isSome = true ∧ p.phone.isSome = true ∧ p.passport.isSome = true ∧
        p.address.isSome = true) ∨
   (((c.resume = 9 ∧ c.kind = .confirmP) ∨ (c.resume = 10 ∧ c.kind = .choiceP) ∨
       ((c.resume = 11 ∨ c.resume = 12 ∨ c.resume = 13 ∨ c.resume = 14) ∧ c.kind = .textP)) ∧
     c.vals.passengers.length = n ∧ passengersPopulated c.vals.passengers = true ∧
     c.vals.currentPassengerIndex = n))

/-- `processPaymentStep` emits no summary card and either ends the dialog or
falls through with an empty result. -/
theorem processPaymentStep_shape (v : Values) (r : Input) (e : Env) :
    (∀ f ps, Ev.summaryCard f ps ∉ (processPaymentStep v r e).1) ∧
    ((∃ v1, (processPaymentStep v r e).2 = .halt v1) ∨
      (∃ v1, (processPaymentStep v r e).2 = .next v1 .nothing)) := by
  simp only [processPaymentStep]
  split_ifs <;> try simp
  rcases hpr : e.paymentResult with _ | pr <;> simp [hpr]
  by_cases hs : pr.success = true <;> simp [hs]

/-- `finalConfirmationStep` emits no summary card and ends the dialog. -/
theorem finalConfirmationStep_shape (v : Values) :
    (∀ f ps, Ev.summaryCard f ps ∉ (finalConfirmationStep v).1) ∧
    ∃ v1, (finalConfirmationStep v).2 = .halt v1 := by
  rcases hb : v.bookingData with _ | bd <;> simp [finalConfirmationStep, hb]

/-- Beginning (or re-beginning) the dialog emits no summary card when at
least one passenger is requested, and any resulting suspension satisfies the
stage invariant. -/
theorem advance_start_ok (n : ℕ) (o : DialogOptions) (hn : 1 ≤ n)
    (ho : o.searchParams.passengers = n) (fuel : ℕ) (e : Env) :
    (∀ f ps, Ev.summaryCard f ps ∉ (advance fuel 0 Values.empty o .nothing e).1) ∧
    (∀ c, (advance fuel 0 Values.empty o .nothing e).2 = some c → StageInv n o c) := by
  rcases fuel with _ | fuel
  · simp [advance]
  rcases hof : o.flightData with _ | f
  · have h0 : runStep 0 Values.empty o .nothing e = ([.msg .noFlightSelected], .halt Values.empty) := by
      simp [runStep, initBookingStep, hof]
    rw [advance, h0]
    simp
  · have h0 : runStep 0 Values.empty o .nothing e =
        ([.msg .startBooking], .next (initialValuesOf o f) .nothing) := by
      simp [runStep, initBookingStep, hof, initialValuesOf]
    rw [advance, h0]
    dsimp only
    rcases fuel with _ | fuel
    · simp [advance]
    · have h1 : runStep 1 (initialValuesOf o f) o .nothing e =
          ([.msg .promptFullName], .prompt .textP (initialValuesOf o f)) := by
        have hlt : (initialValuesOf o f).currentPassengerIndex <
            (initialValuesOf o f).searchParams.passengers := by
          simp [initialValuesOf, ho]
          omega
        simp [runStep, collectPassengerNameStep, hlt]
      rw [advance, h1]
      dsimp only
      constructor
      · intro f1 ps1 h
        simp at h
      · intro c hcc
        simp at hcc
        subst hcc
        exact ⟨by simp [initialValuesOf], Or.inl ⟨rfl, rfl, rfl, rfl⟩⟩

/-- Creating the slot for the first passenger on an empty list. -/
theorem ensureSlot_nil : ensureSlot [] 0 = [({} : PassengerRec)] := by
  simp [ensureSlot]

/-- Writing a field of the only collected passenger. -/
theorem setPassenger_singleton (p : PassengerRec) (f : PassengerRec → PassengerRec) :
    setPassenger [p] 0 f = [f p] := by
  simp [setPassenger]

/-- One user reply preserves the stage invariant, and every summary card it
emits shows a complete passenger list of the requested length. -/
theorem feed_stage_inv (n : ℕ) (o : DialogOptions) (hn : 1 ≤ n)
    (ho : o.searchParams.passengers = n) (c : Config) (hc : StageInv n o c)
    (fuel : ℕ) (r : Input) (e : Env) :
    (∀ f ps, Ev.summaryCard f ps ∈ (feed fuel c o r e).1 →
        ps.length = n ∧ passengersPopulated ps = true) ∧
    (∀ c1, (feed fuel c o r e).2 = some c1 → StageInv n o c1) := by
  obtain ⟨hsp, hcase⟩ := hc
  rcases hk : kindMatches c.kind r with _ | _
  · constructor
    · intro f ps h
      simp [feed, hk] at h
    · intro c1 h
      simp [feed, hk] at h
      exact h ▸ ⟨hsp, hcase⟩
  have hfeed : feed fuel c o r e = advance fuel c.resume c.vals o r e := by
    simp [feed, hk]
  rw [hfeed]
  rcases fuel with _ | fuel
  · simp [advance]
  have hcnt : c.vals.searchParams.passengers = n := by rw [hsp, ho]
  have hlt0 : 0 < c.vals.searchParams.passengers := by omega
  rcases hcase with ⟨h2, hkind, hidx, hps⟩ | ⟨h3, hkind, hidx, p, hps, hp1⟩ |
    ⟨h4, hkind, hidx, p, hps, hp1, hp2⟩ | ⟨h5, hkind, hidx, p, hps, hp1, hp2, hp3⟩ |
    ⟨h6, hkind, hidx, p, hps, hp1, hp2, hp3, hp4⟩ |
    ⟨h7, hkind, hidx, p, hps, hp1, hp2, hp3, hp4, hp5⟩ |
    ⟨hlast, hlen, hpop, hidx⟩
  · -- resume 2: store the full name
    rw [hkind] at hk
    rcases r with _ | s | b | s <;> simp [kindMatches] at hk
    have hstep : runStep c.resume c.vals o (.text s) e =
        ([.msg .promptEmail], .prompt .textP
          { c.vals with passengers := [{ fullName := some s }] }) := by
      rw [h2]
      simp [runStep, collectEmailStep, hidx, hlt0, hps, ensureSlot_nil,
        setPassenger_singleton, Input.asText]
    rw [advance, hstep]
    dsimp only
    refine ⟨fun f ps h => by simp at h, fun c1 h => ?_⟩
    simp at h
    subst h
    exact ⟨hsp, Or.inr (Or.inl ⟨by rw [h2], rfl, hidx, ⟨{ fullName := some s }, rfl, rfl⟩⟩)⟩
  · -- resume 3: validate the email
    rw [hkind] at hk
    rcases r with _ | s | b | s <;> simp [kindMatches] at hk
    rcases hv : isValidEmail s with _ | _
    · have hstep : runStep c.resume c.vals o (.text s) e = ([.msg .invalidEmail], .restart o) := by
        rw [h3]
        simp [runStep, collectPhoneStep, hidx, hlt0, Input.asText, hv]
      rw [advance, hstep]
      dsimp only
      obtain ⟨hnos, hcfg⟩ := advance_start_ok n o hn ho fuel e
      constructor
      · intro f ps h
        exact absurd (by simpa using h) (hnos f ps)
      · intro c1 h
        exact hcfg c1 (by simpa using h)
    · have hstep : runStep c.resume c.vals o (.text s) e =
          ([.msg .promptPhone], .prompt .textP
            { c.vals with passengers := [{ p with email := some s }] }) := by
        rw [h3]
        simp [runStep, collectPhoneStep, hidx, hlt0, hps, setPassenger_singleton,
          Input.asText, hv]
      rw [advance, hstep]
      dsimp only
      refine ⟨fun f ps h => by simp at h, fun c1 h => ?_⟩
      simp at h
      subst h
      exact ⟨hsp, Or.inr (Or.inr (Or.inl ⟨by rw [h3], rfl, hidx,
        ⟨{ p with email := some s }, rfl, hp1, rfl⟩⟩))⟩
  · -- resume 4: store the phone
    rw [hkind] at hk
    rcases r with _ | s | b | s <;> simp [kindMatches] at hk
    have hstep : runStep c.resume c.vals o (.text s) e =
        ([.msg .promptPassport], .prompt .textP
          { c.vals with passengers := [{ p with phone := some s }] }) := by
      rw [h4]
      simp [runStep, collectPassportStep, hidx, hlt0, hps, setPassenger_singleton, Input.asText]
    rw [advance, hstep]
    dsimp only
    refine ⟨fun f ps h => by simp at h, fun c1 h => ?_⟩
    simp at h
    subst h
    exact ⟨hsp, Or.inr (Or.inr (Or.inr (Or.inl ⟨by rw [h4], rfl, hidx,
      ⟨{ p with phone := some s }, rfl, hp1, hp2, rfl⟩⟩)))⟩
  · -- resume 5: store the passport
    rw [hkind] at hk
    rcases r with _ | s | b | s <;> simp [kindMatches] at hk
    have hstep : runStep c.resume c.vals o (.text s) e =
        ([.msg .promptAddress], .prompt .textP
          { c.vals with passengers := [{ p with passport := some s }] }) := by
      rw [h5]
      simp [runStep, collectAddressStep, hidx, hlt0, hps, setPassenger_singleton, Input.asText]
    rw [advance, hstep]
    dsimp only
    refine ⟨fun f ps h => by simp at h, fun c1 h => ?_⟩
    simp at h
    subst h
    exact ⟨hsp, Or.inr (Or.inr (Or.inr (Or.inr (Or.inl ⟨by rw [h5], rfl, hidx,
      ⟨{ p with passport := some s }, rfl, hp1, hp2, hp3, rfl⟩⟩))))⟩
  · -- resume 6: store the address
    rw [hkind] at hk
    rcases r with _ | s | b | s <;> simp [kindMatches] at hk
    have hstep : runStep c.resume c.vals o (.text s) e =
        ([.msg .promptEmergencyContact], .prompt .textP
          { c.vals with passengers := [{ p with address := some s }] }) := by
      rw [h6]
      simp [runStep, collectEmergencyContactStep, hidx, hlt0, hps, setPassenger_singleton,
        Input.asText]
    rw [advance, hstep]
    dsimp only
    refine ⟨fun f ps h => by simp at h, fun c1 h => ?_⟩
    simp at h
    subst h
    exact ⟨hsp, Or.inr (Or.inr (Or.inr (Or.inr (Or.inr (Or.inl ⟨by rw [h6], rfl, hidx,
      ⟨{ p with address := some s }, rfl, hp1, hp2, hp3, hp4, rfl⟩⟩)))))⟩
  · -- resume 7: store the emergency contact; restart or render the summary
    rw [hkind] at hk
    rcases r with _ | s | b | s <;> simp [kindMatches] at hk
    rw [h7]
    by_cases h1n : 1 < c.vals.searchParams.passengers
    · have hstep : runStep 7 c.vals o (.text s) e =
          ([.msg .passengerDetailsCollected], .restart o) := by
        simp [runStep, showBookingSummaryStep, hidx, hlt0, hps, setPassenger_singleton,
          Input.asText, h1n]
      rw [advance, hstep]
      dsimp only
      obtain ⟨hnos, hcfg⟩ := advance_start_ok n o hn ho fuel e
      constructor
      · intro f ps h
        exact absurd (by simpa using h) (hnos f ps)
      · intro c1 h
        exact hcfg c1 (by simpa using h)
    · have hn1 : n = 1 := by omega
      have hcomplete : passengersPopulated [{ p with emergencyContact := some s }] = true := by
        simp [passengersPopulated, PassengerRec.complete, hp1, hp2, hp3, hp4, hp5]
      have hstep : runStep 7 c.vals o (.text s) e =
          ([.summaryCard c.vals.flightData [{ p with emergencyContact := some s }]],
            .next
              { c.vals with
                  passengers := [{ p with emergencyContact := some s }]
                  currentPassengerIndex := 1 }
              .nothing) := by
        simp [runStep, showBookingSummaryStep, hidx, hlt0, hps, setPassenger_singleton,
          Input.asText, h1n, summaryCardOf]
      rw [advance, hstep]
      dsimp only
      have h78 : (7 : ℕ) + 1 = 8 := rfl
      rw [h78]
      rcases fuel with _ | fuel
      · constructor
        · intro f ps h
          simp [advance] at h
          obtain ⟨-, hps2⟩ := h
          subst hps2
          exact ⟨by simp [hn1], hcomplete⟩
        · intro c1 h
          simp [advance] at h
      · rw [advance]
        dsimp only [runStep, confirmBookingStep]
        constructor
        · intro f ps h
          simp at h
          obtain ⟨-, hps2⟩ := h
          subst hps2
          exact ⟨by simp [hn1], hcomplete⟩
        · intro c1 h
          simp at h
          subst h
          refine ⟨hsp, Or.inr (Or.inr (Or.inr (Or.inr (Or.inr (Or.inr
            ⟨Or.inl ⟨rfl, rfl⟩, ?_, ?_, ?_⟩)))))⟩
          · simp [hn1]
          · exact hcomplete
          · simp [hn1]
  · -- resumes 9–14: after the passenger loop
    rcases hlast with ⟨h9, hkind⟩ | ⟨h10, hkind⟩ | ⟨h1114, hkind⟩
    · -- yes/no confirmation
      rw [hkind] at hk
      rcases r with _ | s | b | s <;> simp [kindMatches] at hk
      rcases b with _ | _
      · have hstep : runStep c.resume c.vals o (.confirm false) e =
            ([.msg .bookingCancelled], .halt c.vals) := by
          rw [h9]
          simp [runStep, collectPaymentMethodStep, Input.asBool]
        rw [advance, hstep]
        dsimp only
        exact ⟨fun f ps h => by simp at h, fun c1 h => by simp at h⟩
      · have hstep : runStep c.resume c.vals o (.confirm true) e =
            ([.msg .paymentMethodPrompt], .prompt .choiceP c.vals) := by
          rw [h9]
          simp [runStep, collectPaymentMethodStep, Input.asBool]
        rw [advance, hstep]
        dsimp only
        refine ⟨fun f ps h => by simp at h, fun c1 h => ?_⟩
        simp at h
        subst h
        exact ⟨hsp, Or.inr (Or.inr (Or.inr (Or.inr (Or.inr (Or.inr
          ⟨Or.inr (Or.inl ⟨by rw [h9], rfl⟩), hlen, hpop, hidx⟩)))))⟩
    · -- payment-method choice
      rw [hkind] at hk
      rcases r with _ | s | b | s <;> simp [kindMatches] at hk
      have hstep : runStep c.resume c.vals o (.choice s) e =
          ([.msg .securePaymentInfo, .msg .promptCardNumber],
            .prompt .textP { c.vals with paymentMethod := some (normalizePaymentMethod s) }) := by
        rw [h10]
        simp [runStep, collectCardNumberStep, Input.choiceValue]
      rw [advance, hstep]
      dsimp only
      refine ⟨fun f ps h => by simp at h, fun c1 h => ?_⟩
      simp at h
      subst h
      exact ⟨hsp, Or.inr (Or.inr (Or.inr (Or.inr (Or.inr (Or.inr
        ⟨Or.inr (Or.inr ⟨Or.inl (by rw [h10]), rfl⟩), hlen, hpop, hidx⟩)))))⟩
    · -- card-number, expiry, CVV, and payment steps
      rw [hkind] at hk
      rcases r with _ | s | b | s <;> simp [kindMatches] at hk
      rcases h1114 with h11 | h12 | h13 | h14
      · rcases hv : isSixteenDigits (stripSpaces s) with _ | _
        · have hstep : runStep c.resume c.vals o (.text s) e =
              ([.msg .invalidCardNumber], .restart o) := by
            rw [h11]
            simp [runStep, collectExpiryDateStep, Input.asText, hv]
          rw [advance, hstep]
          dsimp only
          obtain ⟨hnos, hcfg⟩ := advance_start_ok n o hn ho fuel e
          constructor
          · intro f ps h
            exact absurd (by simpa using h) (hnos f ps)
          · intro c1 h
            exact hcfg c1 (by simpa using h)
        · have hstep : runStep c.resume c.vals o (.text s) e =
              ([.msg .promptExpiryDate], .prompt .textP
                { c.vals with cardNumber := some (stripSpaces s) }) := by
            rw [h11]
            simp [runStep, collectExpiryDateStep, Input.asText, hv]
          rw [advance, hstep]
          dsimp only
          refine ⟨fun f ps h => by simp at h, fun c1 h => ?_⟩
          simp at h
          subst h
          exact ⟨hsp, Or.inr (Or.inr (Or.inr (Or.inr (Or.inr (Or.inr
            ⟨Or.inr (Or.inr ⟨Or.inr (Or.inl (by rw [h11])), rfl⟩), hlen, hpop, hidx⟩)))))⟩
      · rcases hv : isMmYyShape s with _ | _
        · have hstep : runStep c.resume c.vals o (.text s) e =
              ([.msg .invalidExpiryDate], .restart o) := by
            rw [h12]
            simp [runStep, collectCvvStep, Input.asText, hv]
          rw [advance, hstep]
          dsimp only
          obtain ⟨hnos, hcfg⟩ := advance_start_ok n o hn ho fuel e
          constructor
          · intro f ps h
            exact absurd (by simpa using h) (hnos f ps)
          · intro c1 h
            exact hcfg c1 (by simpa using h)
        · have hstep : runStep c.resume c.vals o (.text s) e =
              ([.msg .promptCvv], .prompt .textP
                { c.vals with expiryDate := some s }) := by
            rw [h12]
            simp [runStep, collectCvvStep, Input.asText, hv]
          rw [advance, hstep]
          dsimp only
          refine ⟨fun f ps h => by simp at h, fun c1 h => ?_⟩
          simp at h
          subst h
          exact ⟨hsp, Or.inr (Or.inr (Or.inr (Or.inr (Or.inr (Or.inr
            ⟨Or.inr (Or.inr ⟨Or.inr (Or.inr (Or.inl (by rw [h12]))), rfl⟩),
              hlen, hpop, hidx⟩)))))⟩
      · rcases hv : isCvvShape s with _ | _
        · have hstep : runStep c.resume c.vals o (.text s) e =
              ([.msg .invalidCvv], .restart o) := by
            rw [h13]
            simp [runStep, collectCardHolderNameStep, Input.asText, hv]
          rw [advance, hstep]
          dsimp only
          obtain ⟨hnos, hcfg⟩ := advance_start_ok n o hn ho fuel e
          constructor
          · intro f ps h
            exact absurd (by simpa using h) (hnos f ps)
          · intro c1 h
            exact hcfg c1 (by simpa using h)
        · have hstep : runStep c.resume c.vals o (.text s) e =
              ([.msg .promptCardHolderName], .prompt .textP
                { c.vals with cvv := some s }) := by
            rw [h13]
            simp [runStep, collectCardHolderNameStep, Input.asText, hv]
          rw [advance, hstep]
          dsimp only
          refine ⟨fun f ps h => by simp at h, fun c1 h => ?_⟩
          simp at h
          subst h
          exact ⟨hsp, Or.inr (Or.inr (Or.inr (Or.inr (Or.inr (Or.inr
            ⟨Or.inr (Or.inr ⟨Or.inr (Or.inr (Or.inr (by rw [h13]))), rfl⟩),
              hlen, hpop, hidx⟩)))))⟩
      · -- payment processing: ends the dialog or falls through to the final
        -- confirmation, which ends it; no summary card is emitted
        rw [h14]
        obtain ⟨hnos, hout⟩ := processPaymentStep_shape c.vals (.text s) e
        rcases hps14 : processPaymentStep c.vals (.text s) e with ⟨evs, out⟩
        have hrs : runStep 14 c.vals o (.text s) e = (evs, out) := hps14
        have hevs : ∀ f ps, Ev.summaryCard f ps ∉ evs := by
          intro f ps
          have hx := hnos f ps
          rw [hps14] at hx
          exact hx
        rw [hps14] at hout
        dsimp only at hout
        rw [advance, hrs]
        rcases hout with ⟨v1, hv1⟩ | ⟨v1, hv1⟩ <;> subst hv1
        · dsimp only
          exact ⟨fun f ps h => absurd h (hevs f ps), fun c1 h => by simp at h⟩
        · dsimp only
          have h45 : (14 : ℕ) + 1 = 15 := rfl
          rw [h45]
          rcases fuel with _ | fuel
          · constructor
            · intro f ps h
              rcases List.mem_append.mp (by simpa using h) with h1 | h1
              · exact absurd h1 (hevs f ps)
              · simp [advance] at h1
            · intro c1 h
              simp [advance] at h
          · obtain ⟨hnos2, v2, hv2⟩ := finalConfirmationStep_shape v1
            rcases hfin : finalConfirmationStep v1 with ⟨evs2, out2⟩
            have hrs2 : runStep 15 v1 o .nothing e = (evs2, out2) := hfin
            have hevs2 : ∀ f ps, Ev.summaryCard f ps ∉ evs2 := by
              intro f ps
              have hx := hnos2 f ps
              rw [hfin] at hx
              exact hx
            rw [hfin] at hv2
            dsimp only at hv2
            subst hv2
            rw [advance, hrs2]
            dsimp only
            constructor
            · intro f ps h
              rcases List.mem_append.mp (by simpa using h) with h1 | h1
              · exact absurd h1 (hevs f ps)
              · exact absurd (by simpa using h1) (hevs2 f ps)
            · intro c1 h
              simp at h

/-- Lift of `feed_stage_inv` over a sequence of user turns. -/
theorem runTurns_summary (n : ℕ) (o : DialogOptions) (hn : 1 ≤ n)
    (ho : o.searchParams.passengers = n) :
    ∀ (inputs : List Input) (fuel : ℕ) (c : Config) (e : Env), StageInv n o c →
      ∀ f ps, Ev.summaryCard f ps ∈ (runTurns fuel c o inputs e).1 →
        ps.length = n ∧ passengersPopulated ps = true := by
  intro inputs
  induction inputs with
  | nil =>
    intro fuel c e hc f ps h
    simp [runTurns] at h
  | cons r rest ih =>
    intro fuel c e hc f ps h
    rw [runTurns] at h
    rcases hfd : feed fuel c o r e with ⟨evs, cfg⟩
    rw [hfd] at h
    obtain ⟨hsum, hcfg⟩ := feed_stage_inv n o hn ho c hc fuel r e
    cases cfg with
    | none =>
      exact hsum f ps (by rw [hfd]; exact h)
    | some c1 =>
      rcases List.mem_append.mp (by simpa using h) with h1 | h1
      · exact hsum f ps (by rw [hfd]; exact h1)
      · exact ih fuel c1 e (hcfg c1 (by rw [hfd])) f ps h1

/-- C6: in every session requesting `n ≥ 1` passengers, whenever the summary
card renders, the passenger list it shows has length exactly `n` and every
one of the six fields of every record is populated — reaching the summary
with fewer collected passengers is impossible. -/
theorem C6_summary_sees_complete_passengers :
    ∀ (o : DialogOptions) (n : ℕ), o.searchParams.passengers = n → 1 ≤ n →
    ∀ (fuel : ℕ) (inputs : List Input) (e : Env) (f : Option Flight) (ps : List PassengerRec),
      Ev.summaryCard f ps ∈ (sessionRun fuel o inputs e).1 →
      ps.length = n ∧ passengersPopulated ps = true := by
  intro o n ho hn fuel inputs e f ps h
  rw [sessionRun] at h
  rcases hst : advance fuel 0 Values.empty o .nothing e with ⟨evs0, cfg⟩
  rw [hst] at h
  obtain ⟨hnos, hcfg⟩ := advance_start_ok n o hn ho fuel e
  have hnos0 : ∀ f1 ps1, Ev.summaryCard f1 ps1 ∉ evs0 := by
    intro f1 ps1
    have hx := hnos f1 ps1
    rw [hst] at hx
    exact hx
  cases cfg with
  | none => exact absurd (by simpa using h) (hnos0 f ps)
  | some c =>
    rcases List.mem_append.mp (by simpa using h) with h1 | h1
    · exact absurd h1 (hnos0 f ps)
    · exact runTurns_summary n o hn ho inputs fuel c e (hcfg c (by rw [hst])) f ps h1

/-- C6 witness: the one-passenger session reaches the summary with exactly
one fully populated record, and the theorem applies to it. -/
theorem C6_summary_sees_complete_passengers_witness :
    (onePassengerOptions.searchParams.passengers = 1 ∧
      Ev.summaryCard (some ⟨("$485")⟩) [aliceRec] ∈
        (sessionRun 64 onePassengerOptions passengerInputs okPaymentEnv).1) ∧
    ([aliceRec].length = 1 ∧ passengersPopulated [aliceRec] = true) := by
  have hmem : Ev.summaryCard (some ⟨("$485")⟩) [aliceRec] ∈
      (sessionRun 64 onePassengerOptions passengerInputs okPaymentEnv).1 := by decide
  exact ⟨⟨rfl, hmem⟩,
    C6_summary_sees_complete_passengers onePassengerOptions 1 rfl (by decide) 64
      passengerInputs okPaymentEnv _ _ hmem⟩

/-- The property C10 asserts of every booking record handed to
`saveBooking`: status CONFIRMED, ids taken from a successful payment
result. -/
def SavedConfirmed (e : Env) (bd : BookingData) : Prop :=
  bd.status = ("CONFIRMED") ∧
    ∃ pr : PaymentResult, e.paymentResult = some pr ∧ pr.success = true ∧
      bd.paymentId = jsOrOpt pr.paymentId pr.id ∧ bd.transactionId = pr.transactionId

/-- Only the success branch of `processPaymentStep` ever emits `saveBooking`,
and it does so with a CONFIRMED record built from the successful result. -/
theorem runStep_saveBooking_mem :
    ∀ (i : ℕ) (v : Values) (o : DialogOptions) (r : Input) (e : Env) (bd : BookingData),
      Ev.saveBooking bd ∈ (runStep i v o r e).1 → SavedConfirmed e bd := by
  intro i v o r e bd h
  rcases i with _ | _ | _ | _ | _ | _ | _ | _ | _ | _ | _ | _ | _ | _ | _ | _ | i
  · rcases ho : o.flightData with _ | f <;> simp [runStep, initBookingStep, ho] at h
  · simp only [runStep, collectPassengerNameStep] at h
    split_ifs at h <;> simp at h
  · simp only [runStep, collectEmailStep] at h
    split_ifs at h <;> simp at h
  · simp only [runStep, collectPhoneStep] at h
    split_ifs at h <;> simp at h
  · simp only [runStep, collectPassportStep] at h
    split_ifs at h <;> simp at h
  · simp only [runStep, collectAddressStep] at h
    split_ifs at h <;> simp at h
  · simp only [runStep, collectEmergencyContactStep] at h
    split_ifs at h <;> simp at h
  · simp only [runStep, showBookingSummaryStep] at h
    split_ifs at h <;> simp [summaryCardOf] at h
  · simp [runStep, confirmBookingStep] at h
  · simp only [runStep, collectPaymentMethodStep] at h
    split_ifs at h <;> simp at h
  · simp [runStep, collectCardNumberStep] at h
  · simp only [runStep, collectExpiryDateStep] at h
    split_ifs at h <;> simp at h
  · simp only [runStep, collectCvvStep] at h
    split_ifs at h <;> simp at h
  · simp only [runStep, collectCardHolderNameStep] at h
    split_ifs at h <;> simp at h
  · simp only [runStep, processPaymentStep] at h
    split_ifs at h <;> try simp at h
    rcases hpr : e.paymentResult with _ | pr <;> rw [hpr] at h
    · simp at h
    · by_cases hs : pr.success = true <;> simp [hs] at h
      subst h
      exact ⟨rfl, pr, hpr, hs, rfl, rfl⟩
  · rcases hb : v.bookingData with _ | bd2 <;> simp [runStep, finalConfirmationStep, hb] at h
  · simp [runStep] at h

/-- Lift of `runStep_saveBooking_mem` through the step chains of
`advance`. -/
theorem advance_saveBooking_mem :
    ∀ (fuel i : ℕ) (v : Values) (o : DialogOptions) (r : Input) (e : Env) (bd : BookingData),
      Ev.saveBooking bd ∈ (advance fuel i v o r e).1 → SavedConfirmed e bd := by
  intro fuel
  induction fuel with
  | zero =>
    intro i v o r e bd h
    simp [advance] at h
  | succ n ih =>
    intro i v o r e bd h
    rw [advance] at h
    rcases hrs : runStep i v o r e with ⟨evs, out⟩
    rw [hrs] at h
    have hevs : ∀ b, Ev.saveBooking b ∈ evs → SavedConfirmed e b := by
      intro b hb
      exact runStep_saveBooking_mem i v o r e b (by rw [hrs]; exact hb)
    cases out with
    | prompt k v1 => exact hevs bd h
    | next v1 r1 =>
      rcases List.mem_append.mp (by simpa using h) with h1 | h2
      · exact hevs bd h1
      · exact ih (i + 1) v1 o r1 e bd h2
    | restart o1 =>
      rcases List.mem_append.mp (by simpa using h) with h1 | h2
      · exact hevs bd h1
      · exact ih 0 Values.empty o1 .nothing e bd h2
    | halt v1 => exact hevs bd h

/-- Lift through a sequence of user turns. -/
theorem runTurns_saveBooking_mem :
    ∀ (inputs : List Input) (fuel : ℕ) (c : Config) (o : DialogOptions) (e : Env) (bd : BookingData),
      Ev.saveBooking bd ∈ (runTurns fuel c o inputs e).1 → SavedConfirmed e bd := by
  intro inputs
  induction inputs with
  | nil =>
    intro fuel c o e bd h
    simp [runTurns] at h
  | cons r rest ih =>
    intro fuel c o e bd h
    rw [runTurns] at h
    rcases hfd : feed fuel c o r e with ⟨evs, cfg⟩
    rw [hfd] at h
    have hfeed : ∀ b, Ev.saveBooking b ∈ evs → SavedConfirmed e b := by
      intro b hb
      have he : evs = (feed fuel c o r e).1 := by rw [hfd]
      rw [he] at hb
      rcases hk : kindMatches c.kind r <;> simp [feed, hk] at hb
      exact advance_saveBooking_mem fuel c.resume c.vals o r e b hb
    cases cfg with
    | none => exact hfeed bd h
    | some c1 =>
      rcases List.mem_append.mp (by simpa using h) with h1 | h2
      · exact hfeed bd h1
      · exact ih fuel c1 o e bd h2

/-- C10: every booking record handed to the persistence collaborator has
status CONFIRMED with paymentId/transactionId taken from a successful
payment result — records in any other status are never persisted, and a
payment failure or thrown collaborator error leaves nothing persisted. -/
theorem C10_persist_only_confirmed :
    (∀ (fuel i : ℕ) (v : Values) (o : DialogOptions) (r : Input) (e : Env) (bd : BookingData),
      Ev.saveBooking bd ∈ (advance fuel i v o r e).1 →
      bd.status = ("CONFIRMED") ∧
        ∃ pr : PaymentResult, e.paymentResult = some pr ∧ pr.success = true ∧
          bd.paymentId = jsOrOpt pr.paymentId pr.id ∧ bd.transactionId = pr.transactionId) ∧
    (∀ (fuel : ℕ) (o : DialogOptions) (inputs : List Input) (e : Env) (bd : BookingData),
      Ev.saveBooking bd ∈ (sessionRun fuel o inputs e).1 →
      bd.status = ("CONFIRMED") ∧
        ∃ pr : PaymentResult, e.paymentResult = some pr ∧ pr.success = true ∧
          bd.paymentId = jsOrOpt pr.paymentId pr.id ∧ bd.transactionId = pr.transactionId) := by
  constructor
  · exact fun fuel i v o r e bd h => advance_saveBooking_mem fuel i v o r e bd h
  · intro fuel o inputs e bd h
    rw [sessionRun] at h
    rcases hst : advance fuel 0 Values.empty o .nothing e with ⟨evs0, cfg⟩
    rw [hst] at h
    have hstart : ∀ b, Ev.saveBooking b ∈ evs0 → SavedConfirmed e b := by
      intro b hb
      exact advance_saveBooking_mem fuel 0 Values.empty o .nothing e b (by rw [hst]; exact hb)
    cases cfg with
    | none => exact hstart bd h
    | some c =>
      rcases List.mem_append.mp (by simpa using h) with h1 | h2
      · exact hstart bd h1
      · exact runTurns_saveBooking_mem inputs fuel c o e bd h2

/-- The session values at the payment step of the one-passenger happy
path. -/
def paidValues : Values :=
  { flightData := some ⟨("$485")⟩
    searchParams := ⟨1⟩
    passengers := [aliceRec]
    currentPassengerIndex := 1
    paymentMethod := some ("credit_card")
    cardNumber := some ("4532759734545858")
    expiryDate := some ("12/30")
    cvv := some ("123") }

/-- The booking record the happy path persists. -/
def confirmedBooking : BookingData :=
  { bookingId := ("BK1")
    flight := ⟨("$485")⟩
    passengers := [aliceRec]
    searchParams := ⟨1⟩
    status := ("CONFIRMED")
    totalAmount := totalOf 485 1
    currency := ("USD")
    paymentId := some ("PAY1")
    transactionId := some ("TX1") }

/-- C10 witness: the happy-path payment step saves `confirmedBooking`, and
the theorem yields its CONFIRMED status and collaborator-sourced ids. -/
theorem C10_persist_only_confirmed_witness :
    Ev.saveBooking confirmedBooking ∈
      (advance 1 14 paidValues onePassengerOptions (.text ("Alice Doe")) okPaymentEnv).1 ∧
    (confirmedBooking.status = ("CONFIRMED") ∧
      ∃ pr : PaymentResult, okPaymentEnv.paymentResult = some pr ∧ pr.success = true ∧
        confirmedBooking.paymentId = jsOrOpt pr.paymentId pr.id ∧
        confirmedBooking.transactionId = pr.transactionId) := by
  have hp : parsePrice ("$485") = (485, ("USD")) := by decide
  have hb : ¬ (485 : ℚ) = 0 := by norm_num
  have ht : ¬ totalOf 485 1 ≤ 0 := by norm_num [totalOf]
  have hm : toSmallestUnit ("USD") (totalOf 485 1) = 48500 := by
    rw [toSmallestUnit, if_neg (by decide)]
    apply jsRound_eq <;> norm_num [totalOf]
  have hmem : Ev.saveBooking confirmedBooking ∈
      (advance 1 14 paidValues onePassengerOptions (.text ("Alice Doe")) okPaymentEnv).1 := by
    show Ev.saveBooking confirmedBooking ∈ (advance (0 + 1) 14 paidValues onePassengerOptions
      (.text ("Alice Doe")) okPaymentEnv).1
    rw [advance]
    simp only [runStep, processPaymentStep, paidValues, okPaymentEnv, Option.map, Option.getD,
      hp, hm, confirmedBooking]
    simp [hb, ht, hm, maxLimitFor, confirmedBooking, jsOrOpt]
    left
    decide
  exact ⟨hmem,
    C10_persist_only_confirmed.1 1 14 paidValues onePassengerOptions (.text ("Alice Doe"))
      okPaymentEnv confirmedBooking hmem⟩

/-- C9: answering no at the yes/no confirmation ends the dialog with a
cancellation message; the session values are unchanged (no `bookingRecord`
is created) and neither the payment collaborator nor the persistence
collaborator is invoked in the remainder of the session. -/
theorem C9_decline_terminates :
    ∀ (v : Values) (o : DialogOptions) (e : Env) (fuel : ℕ),
      runStep 9 v o (.confirm false) e = ([.msg .bookingCancelled], .halt v) ∧
      advance (fuel + 1) 9 v o (.confirm false) e = ([.msg .bookingCancelled], none) ∧
      (∀ pd, Ev.callPayment pd ∉ (advance (fuel + 1) 9 v o (.confirm false) e).1) ∧
      (∀ bd, Ev.saveBooking bd ∉ (advance (fuel + 1) 9 v o (.confirm false) e).1) := by
  intro v o e fuel
  refine ⟨rfl, rfl, ?_, ?_⟩ <;> intro x <;> simp [advance, runStep, collectPaymentMethodStep, Input.asBool]

end FlightBot

